import Mathlib

/-!
Verification development for the gray-matter segmentation pipeline
(scripts/sct_segment_graymatter.py): shallow embedding of the pipeline's
data model and per-stage operations, with theorems settling the spec's
claims about preprocessing, post-processing, validation and the ratio
computation.
-/

set_option autoImplicit false

namespace SctGmseg

/-! ## RatioComputation (FullGmSegmentation.compute_ratio, lines 201-225)

The source reads two per-slice CSA text files, zips their lines, splits
each line into an index and an area, asserts the indices match, and writes
one line holding the index and the quotient of the two areas.  A CSA line
is embedded as a pair of a slice index and a rational area.  Python's
float division raises ZeroDivisionError on a zero denominator and the
assert statement raises AssertionError on an index mismatch; both abort
the loop, embedded as an error result. -/

inductive RatioErr
  | assertMismatch
  | divByZero
  deriving DecidableEq

/-- Python float division: error (ZeroDivisionError) on a zero denominator. -/
def pyFloatDiv (a b : ℚ) : Except RatioErr ℚ :=
  if b = 0 then .error .divByZero else .ok (a / b)

/-- The loop body of compute_ratio over the positionally zipped line pairs:
for each pair it asserts the indices are equal (AssertionError otherwise),
divides the gray area by the white area (ZeroDivisionError on zero), and
emits one record per pair. -/
def computeRatioPairs : List ((ℕ × ℚ) × (ℕ × ℚ)) → Except RatioErr (List (ℕ × ℚ))
  | [] => .ok []
  | ((i, g), (j, w)) :: rest =>
    if i = j then
      match pyFloatDiv g w with
      | .error e => .error e
      | .ok r =>
        match computeRatioPairs rest with
        | .error e => .error e
        | .ok l => .ok ((i, r) :: l)
    else .error .assertMismatch

/-- compute_ratio: zip the gray-matter and white-matter per-slice (index, area)
sequences positionally (Python's zip truncates to the shorter sequence) and
process each pair. -/
def compute_ratio (gm wm : List (ℕ × ℚ)) : Except RatioErr (List (ℕ × ℚ)) :=
  computeRatioPairs (List.zip gm wm)

/-! ## Output type (SegmentationParam.res_type) -/

/-- The res_type parameter of the pipeline: binary or probabilistic output. -/
inductive ResType
  | binary
  | prob
  deriving DecidableEq

/-! ## ValidationHarness binarization (FullGmSegmentation.validation, lines 239-244)

The source copies the computed gray-matter and white-matter volumes and,
only when res_type is prob, replaces their data by (data >= 0.5) for gray
matter and (data >= 0.50001) for white matter, cast to int.  A volume's
data is embedded as a list of rational voxel values. -/

/-- The comparison-purpose binarization of the computed volumes in
validation: thresholds applied only in the probabilistic case. -/
def validation_binarize (rt : ResType) (gm wm : List ℚ) : List ℚ × List ℚ :=
  match rt with
  | .prob =>
      (gm.map (fun x => if (1 : ℚ)/2 ≤ x then 1 else 0),
       wm.map (fun x => if (50001 : ℚ)/100000 ≤ x then 1 else 0))
  | .binary => (gm, wm)

/-! ## OriginalSpaceTransform cleanup (FullGmSegmentation.post_processing, lines 188-191)

For probabilistic output the source runs sct_maths with -thr 0.05 on the
resampled result.  The source's own WARNING comment states that, until the
sct_maths -thr option is changed, this outputs a BINARY segmentation (the
commented-out fslmaths call above it would instead have kept graded values
at or above the threshold). -/

/-- The effect of the sct_maths -thr call as documented by the source's own
WARNING comment (line 190): it outputs a binary segmentation, mapping a
voxel to 1 when it reaches the threshold and to 0 otherwise. -/
def sct_maths_thr (t x : ℚ) : ℚ :=
  if t ≤ x then 1 else 0

/-- The 0.05 cleanup applied to a result volume in post_processing: only in
the probabilistic case, via sct_maths -thr 0.05. -/
def post_processing_cleanup (rt : ResType) (v : List ℚ) : List ℚ :=
  if rt = ResType.prob then v.map (sct_maths_thr (1/20)) else v

/-- Modelled from the spec: the intended graded cleanup threshold for
probabilistic output (suppress values below 0.05, preserve graded values at
or above it — not a full binarization). -/
def spec_graded_cleanup (t x : ℚ) : ℚ :=
  if x < t then 0 else x

/-! ## Level-file orientation normalization (Preprocessing.__init__, lines 84-90)

When a precomputed level file is supplied, the source queries its
orientation; if it is not IRP it reorients the file and appends _IRP to the
file name, and the resulting level_fname is the (possibly renamed) file
name plus the extension. -/

/-- The level-file normalization step: given the queried orientation and the
level file's name and extension, returns the final level_fname together with
whether a reorientation command was issued. -/
def level_normalize (level_orientation level_file_name level_ext : String) :
    String × Bool :=
  if level_orientation ≠ "IRP" then
    (level_file_name ++ "_IRP" ++ level_ext, true)
  else
    (level_file_name ++ level_ext, false)

/-! ## Level-data precedence in preprocessing (Preprocessing.__init__, lines 31-52 and 82-90)

At the top of __init__, if level_fname is not None the t2_data argument is
set to None before any file is staged; the t2 copies (lines 49-52) and the
compute_level_file call (line 83) are both guarded by t2_data being not
None afterwards. -/

/-- The T2 data triple (image, cord segmentation, landmarks). -/
structure T2Data where
  img : String
  seg : String
  lmk : String

/-- The observable effects of Preprocessing.__init__ relevant to the
level-data precedence: the effective t2_data after the reset, whether the
t2 files were copied into the workspace, whether compute_level_file was
invoked, and whether the precomputed-level branch was taken. -/
structure PreprocTrace where
  t2_data : Option T2Data
  t2_files_copied : Bool
  compute_level_file_invoked : Bool
  level_branch_taken : Bool

/-- The control flow of Preprocessing.__init__ on its t2_data and
level_fname arguments: the precedence reset followed by the guarded t2
staging, the guarded compute_level_file call and the elif level branch. -/
def preprocessing_init_levels (t2_data0 : Option T2Data)
    (level_fname : Option String) : PreprocTrace :=
  let t2_data := if level_fname.isSome then none else t2_data0
  { t2_data := t2_data
    t2_files_copied := t2_data.isSome
    compute_level_file_invoked := t2_data.isSome
    level_branch_taken := t2_data.isNone && level_fname.isSome }

/-! ## Resampling step of preprocessing (Preprocessing.__init__, lines 58-62)

The source reads the native in-plane spacing (original_px, original_py) of
the staged subject volume and, when either spacing rounded to 2 decimal
places differs from resample_to = 0.3, resamples both the subject volume
and the cord segmentation to the target spacing, the latter with
binary=True.  resample_image itself lives in msct_gmseg_utils, which is not
under src/, so its effect is modelled from the spec. -/

/-- A staged volume: in-plane spacing and voxel data. -/
structure Vol2 where
  px : ℚ
  py : ℚ
  data : List ℚ

/-- Rounding to 2 decimal places, as Python's round(x, 2). -/
def round2 (q : ℚ) : ℚ :=
  ((round (100 * q) : ℤ) : ℚ) / 100

/-- The fixed target in-plane spacing (self.resample_to = 0.3). -/
def resample_to : ℚ := 3/10

/-- Modelled from the spec: resample_image (msct_gmseg_utils, not under
src/) resamples a volume to the new in-plane spacing using a
smoothing-appropriate interpolation; the interpolation of the data is out
of the spec's scope and taken as a parameter. -/
def resample_image (interp : List ℚ → List ℚ) (v : Vol2) (npx npy : ℚ) : Vol2 :=
  { px := npx, py := npy, data := interp v.data }

/-- Modelled from the spec: the data transformation of nearest/binary-
preserving interpolation — each of the m output voxels takes the value of
some input voxel (selection sel), out-of-range selections reading the
background value 0. -/
def nn_interp (sel : ℕ → ℕ) (m : ℕ) (d : List ℚ) : List ℚ :=
  (List.range m).map (fun i => d.getD (sel i) 0)

/-- Modelled from the spec: resample_image with binary=True — resample to
the new spacing with nearest/binary-preserving interpolation, so that a
segmentation with values in 0/1 keeps its values in 0/1. -/
def resample_image_binary (sel : ℕ → ℕ) (m : ℕ) (v : Vol2) (npx npy : ℚ) : Vol2 :=
  { px := npx, py := npy, data := nn_interp sel m v.data }

/-- The resampling step of Preprocessing.__init__: if either native
in-plane spacing of the subject volume, rounded to 2 decimal places,
differs from resample_to, resample the subject (smoothing interpolation)
and the cord segmentation (binary interpolation) to the target spacing.
Returns the two volumes and whether resampling was performed. -/
def preprocessing_resample (interp : List ℚ → List ℚ) (sel : ℕ → ℕ) (m : ℕ)
    (t2star sc_seg : Vol2) : Vol2 × Vol2 × Bool :=
  if round2 t2star.px ≠ resample_to ∨ round2 t2star.py ≠ resample_to then
    (resample_image interp t2star resample_to resample_to,
     resample_image_binary sel m sc_seg resample_to resample_to, true)
  else
    (t2star, sc_seg, false)

/-! ## Crop and inverse crop (crop_t2_star / inverse_square_crop)

crop_t2_star and inverse_square_crop live in msct_gmseg_utils, which is not
under src/; the script computes the square mask once during preprocessing
(line 77) and post_processing pastes every result volume back through
inverse_square_crop with that same mask (lines 173-179).  Both operations
are modelled from the spec (sections 4.1 step 4, 4.2 step 1, 8). -/

/-- Modelled from the spec: a processing-space Volume — 3D extent and a
total voxel-value function. -/
structure Vol3 where
  nx : ℕ
  ny : ℕ
  nz : ℕ
  val : ℕ → ℕ → ℕ → ℚ

/-- Modelled from the spec: the CropMask — the in-plane offset and side of
the square window centered on the cord, together with the pre-crop full
extent, recorded once and reused by the inverse crop. -/
structure CropMask where
  x0 : ℕ
  y0 : ℕ
  side : ℕ
  fnx : ℕ
  fny : ℕ
  fnz : ℕ

/-- In-plane coordinates lying inside the crop window of a mask. -/
abbrev inCropWindow (m : CropMask) (x y : ℕ) : Prop :=
  m.x0 ≤ x ∧ x < m.x0 + m.side ∧ m.y0 ≤ y ∧ y < m.y0 + m.side

/-- Modelled from the spec: the forward crop — extract the square window at
the mask's offset (crop_t2_star / crop_from_square_mask, not under src/). -/
def crop_from_square_mask (v : Vol3) (m : CropMask) : Vol3 :=
  { nx := m.side
    ny := m.side
    nz := v.nz
    val := fun x y z => v.val (x + m.x0) (y + m.y0) z }

/-- Modelled from the spec: inverse_square_crop (not under src/) — paste
the cropped data back into a full-extent volume at the mask's offset, every
outside-window voxel being background zero. -/
def inverse_square_crop (c : Vol3) (m : CropMask) : Vol3 :=
  { nx := m.fnx
    ny := m.fny
    nz := m.fnz
    val := fun x y z =>
      if inCropWindow m x y then c.val (x - m.x0) (y - m.y0) z else 0 }

/-! ## ValidationHarness Dice fallback (FullGmSegmentation.validation, lines 312-347)

The direct sct_dice_coefficient call is wrapped in a try block (with
raise_exception=True); on failure the source registers the reference into
the computed result's space with isct_antsRegistration using a
zero-iteration Translation transform, thresholds the registered reference
at 0.1 with sct_maths, binarizes it with sct_maths -bin, and retries
sct_dice_coefficient once on the registered reference.  All other external
calls, the fallback preparation steps and the Hausdorff call included, run
through sct.run without a try block.  sct.run itself lives in sct_utils,
not under src/, and is modelled from the spec (section 5): a failing
external call is fatal unless explicitly caught.  The environment env gives
each command's success. -/

/-- An external tool invocation issued by the validation Dice section. -/
inductive VCmd
  | dice (ref res : String)
  | antsRegTranslation (res ref : String)
  | maths_thr (f : String) (t : ℚ)
  | maths_bin (f : String)
  | hausdorff (res ref : String)
  deriving DecidableEq

/-- Whether a command is an overlap-tool (Dice) invocation. -/
def isDiceCmd : VCmd → Bool
  | VCmd.dice _ _ => true
  | _ => false

/-- The file name of the reference registered into the result's space. -/
def in_res_space (ref : String) : String :=
  ref ++ "_in_res_space"

/-- The fixed threshold applied to the registered reference (0.1). -/
def dice_fallback_thr : ℚ := 1/10

/-- One Dice comparison with the registration fallback: try the direct
invocation; on failure run the zero-iteration translation registration,
threshold the registered reference at 0.1, binarize it, and retry the
overlap computation once.  Returns whether the comparison succeeded and the
trace of issued commands; a failing uncaught command aborts. -/
def diceWithFallback (env : VCmd → Bool) (ref res : String) : Bool × List VCmd :=
  let d := VCmd.dice ref res
  if env d then (true, [d])
  else
    let r := VCmd.antsRegTranslation res ref
    if env r = false then (false, [d, r])
    else
      let t := VCmd.maths_thr (in_res_space ref) dice_fallback_thr
      if env t = false then (false, [d, r, t])
      else
        let b := VCmd.maths_bin (in_res_space ref)
        if env b = false then (false, [d, r, t, b])
        else
          let d2 := VCmd.dice (in_res_space ref) res
          (env d2, [d, r, t, b, d2])

/-- The Dice part of validation: the gray-matter comparison with fallback,
then the white-matter comparison with fallback, then the boundary-distance
(Hausdorff) call, which has no fallback. -/
def validation_dice_section (env : VCmd → Bool)
    (refgm resgm refwm reswm : String) : Bool × List VCmd :=
  let g := diceWithFallback env refgm resgm
  if g.1 = false then (false, g.2)
  else
    let w := diceWithFallback env refwm reswm
    if w.1 = false then (false, g.2 ++ w.2)
    else
      (env (VCmd.hausdorff resgm refgm),
       g.2 ++ w.2 ++ [VCmd.hausdorff resgm refgm])

/-- A concrete environment in which only the direct gray-matter Dice
invocation fails. -/
def fallback_demo_env : VCmd → Bool
  | VCmd.dice ref _ => if ref = "ref_gm" then false else true
  | _ => true

/-! ## Concrete demonstration values -/

/-- A subject volume with native in-plane spacing 0.5. -/
def demo_t2star : Vol2 := ⟨1/2, 1/2, [2, 3]⟩

/-- A binary cord segmentation with native in-plane spacing 0.5. -/
def demo_sc_seg : Vol2 := ⟨1/2, 1/2, [0, 1]⟩

/-- A 5 by 5 by 2 volume with distinct voxel values. -/
def demo_vol : Vol3 :=
  ⟨5, 5, 2, fun x y z => (x : ℚ) + 10 * (y : ℚ) + 100 * (z : ℚ)⟩

/-- A crop mask of side 2 at offset (1, 1) inside the 5 by 5 by 2 extent. -/
def demo_mask : CropMask := ⟨1, 1, 2, 5, 5, 2⟩

/-! ## Theorems -/

/-- On a pair list whose indices agree positionally and whose white-matter
areas are nonzero, the loop emits exactly one (index, gm/wm) record per pair. -/
theorem computeRatioPairs_ok (ps : List ((ℕ × ℚ) × (ℕ × ℚ)))
    (halign : ∀ p ∈ ps, p.1.1 = p.2.1) (hnz : ∀ p ∈ ps, p.2.2 ≠ 0) :
    computeRatioPairs ps = .ok (ps.map (fun p => (p.1.1, p.1.2 / p.2.2))) := by
  induction ps with
  | nil => rfl
  | cons p rest ih =>
    obtain ⟨⟨i, g⟩, ⟨j, w⟩⟩ := p
    have hij : i = j := halign _ (List.mem_cons_self _ _)
    have hw : w ≠ 0 := hnz _ (List.mem_cons_self _ _)
    have hrest := ih (fun q hq => halign q (List.mem_cons_of_mem _ hq))
      (fun q hq => hnz q (List.mem_cons_of_mem _ hq))
    simp [computeRatioPairs, hij, pyFloatDiv, hw, hrest]

/-- C6: RatioComputation pairs the gray-matter and white-matter per-slice
(index, area) sequences positionally and, when the indices agree at every
paired position (and no white-matter area is zero, which would instead abort
with ZeroDivisionError as settled separately), emits one (index, gm/wm)
record per pair; on the sequences [(0,10)] and [(1,5)], whose indices differ
at position 0, it fails with the alignment assertion error instead of
emitting a record. -/
theorem C6_ratio_alignment (gm wm : List (ℕ × ℚ))
    (halign : ∀ p ∈ List.zip gm wm, p.1.1 = p.2.1)
    (hnz : ∀ p ∈ List.zip gm wm, p.2.2 ≠ 0) :
    compute_ratio gm wm =
      .ok ((List.zip gm wm).map (fun p => (p.1.1, p.1.2 / p.2.2))) ∧
    compute_ratio [(0, 10)] [(1, 5)] = .error .assertMismatch := by
  exact ⟨computeRatioPairs_ok _ halign hnz, rfl⟩

/-- Witness for C6 at the spec's example: gray areas [(0,10),(1,20)] and
white areas [(0,5),(1,10)] yield the records [(0,2),(1,2)]. -/
theorem C6_ratio_alignment_witness :
    compute_ratio [(0, 10), (1, 20)] [(0, 5), (1, 10)] =
      .ok [(0, 2), (1, 2)] ∧
    compute_ratio [(0, 10)] [(1, 5)] = .error .assertMismatch := by
  have h := C6_ratio_alignment [(0, 10), (1, 20)] [(0, 5), (1, 10)]
    (by decide) (by decide)
  exact ⟨h.1.trans (by norm_num), h.2⟩

/-- C7: the division of a gray area by a white area carries no guard on the
denominator: on index-aligned input with a zero white-matter area the
division is performed and aborts with ZeroDivisionError, so the per-pair
step does not complete normally with a flagged or substituted value. -/
theorem C7_ratio_div_by_zero_unguarded :
    compute_ratio [(0, 10)] [(0, 0)] = .error .divByZero :=
  rfl

/-- C10: when the two sequences have different lengths but their indices
agree positionally over the zipped common prefix (with nonzero white areas
there), compute_ratio succeeds silently, emitting exactly
min (length gm) (length wm) records and raising no error for the unmatched
trailing entries, because zip truncates to the shorter sequence. -/
theorem C10_ratio_truncates_to_min (gm wm : List (ℕ × ℚ))
    (halign : ∀ p ∈ List.zip gm wm, p.1.1 = p.2.1)
    (hnz : ∀ p ∈ List.zip gm wm, p.2.2 ≠ 0) :
    ∃ l, compute_ratio gm wm = .ok l ∧ l.length = min gm.length wm.length := by
  have h := computeRatioPairs_ok (List.zip gm wm) halign hnz
  exact ⟨_, h, by rw [List.length_map, List.length_zip]⟩

/-- Witness for C10: gray areas [(0,10),(1,20)] against the shorter white
areas [(0,5)] succeed with a single record. -/
theorem C10_ratio_truncates_to_min_witness :
    ∃ l, compute_ratio [(0, 10), (1, 20)] [(0, 5)] = .ok l ∧
      l.length = min 2 1 := by
  exact C10_ratio_truncates_to_min [(0, 10), (1, 20)] [(0, 5)]
    (by decide) (by decide)

/-- C5: in validation, the computed gray-matter and white-matter volumes are
binarized if and only if the output type is probabilistic, gray matter at
threshold 0.5 (with >=) and white matter at threshold 0.50001 (with >=);
for binary output type both volumes are used unmodified. -/
theorem C5_validation_binarize_iff_prob (rt : ResType) (gm wm : List ℚ) :
    validation_binarize rt gm wm =
      if rt = ResType.prob then
        (gm.map (fun x => if (1 : ℚ)/2 ≤ x then 1 else 0),
         wm.map (fun x => if (50001 : ℚ)/100000 ≤ x then 1 else 0))
      else (gm, wm) := by
  cases rt <;> simp [validation_binarize]

/-- C3 (code bug): on a probabilistic result volume holding the graded voxel
value 0.6, the 0.05 cleanup step as implemented (sct_maths -thr, which by
the source's own WARNING comment outputs a binary segmentation) produces 1:
it increases the voxel's value and does not preserve graded values at or
above 0.05, whereas the spec's intended graded threshold keeps 0.6
unchanged. -/
theorem C3_prob_cleanup_binarizes :
    post_processing_cleanup ResType.prob [3/5] = [1] ∧
    (3 : ℚ)/5 < 1 ∧
    spec_graded_cleanup (1/20) (3/5) = 3/5 := by
  refine ⟨?_, by norm_num, ?_⟩
  · simp only [post_processing_cleanup, if_pos rfl, List.map_cons, List.map_nil,
      sct_maths_thr]
    norm_num
  · simp only [spec_graded_cleanup]
    norm_num

/-- C8: a supplied level file is reoriented (and renamed with the _IRP
suffix) exactly when its queried orientation is not IRP; a level file
already in IRP orientation is passed through with its name unchanged and no
reorientation command issued. -/
theorem C8_level_reorient_iff_not_irp (o n e : String) :
    level_normalize o n e =
      if o = "IRP" then (n ++ e, false) else (n ++ "_IRP" ++ e, true) := by
  by_cases h : o = "IRP" <;> simp [level_normalize, h]

/-- C9: when a precomputed level file is supplied, it takes precedence over
any T2 data triple: the effective t2_data is reset to None before staging,
the T2 files are never copied into the workspace, and compute_level_file is
never invoked; the precomputed-level branch is taken instead. -/
theorem C9_level_precedence_over_t2 (t2 : Option T2Data) (lvl : Option String)
    (h : lvl.isSome) :
    (preprocessing_init_levels t2 lvl).t2_data = none ∧
    (preprocessing_init_levels t2 lvl).t2_files_copied = false ∧
    (preprocessing_init_levels t2 lvl).compute_level_file_invoked = false ∧
    (preprocessing_init_levels t2 lvl).level_branch_taken = true := by
  simp [preprocessing_init_levels, h]

/-- Witness for C9 at a concrete T2 triple and level file name. -/
theorem C9_level_precedence_over_t2_witness :
    (some "levels.nii.gz").isSome = true ∧
    ((preprocessing_init_levels (some ⟨"t2", "t2_seg", "t2_lmk"⟩)
        (some "levels.nii.gz")).t2_data = none ∧
     (preprocessing_init_levels (some ⟨"t2", "t2_seg", "t2_lmk"⟩)
        (some "levels.nii.gz")).t2_files_copied = false ∧
     (preprocessing_init_levels (some ⟨"t2", "t2_seg", "t2_lmk"⟩)
        (some "levels.nii.gz")).compute_level_file_invoked = false ∧
     (preprocessing_init_levels (some ⟨"t2", "t2_seg", "t2_lmk"⟩)
        (some "levels.nii.gz")).level_branch_taken = true) :=
  ⟨rfl, C9_level_precedence_over_t2 (some ⟨"t2", "t2_seg", "t2_lmk"⟩)
    (some "levels.nii.gz") rfl⟩

/-- A getD lookup with default 0 yields a member of the list or 0. -/
theorem getD_zero_mem_or_eq (l : List ℚ) (n : ℕ) :
    l.getD n 0 ∈ l ∨ l.getD n 0 = 0 := by
  by_cases h : n < l.length
  · left
    rw [List.getD_eq_getElem l 0 h]
    exact List.getElem_mem h
  · right
    exact List.getD_eq_default l 0 (le_of_not_lt h)

/-- Nearest-neighbour interpolation preserves 0/1-valued data. -/
theorem nn_interp_binary (sel : ℕ → ℕ) (m : ℕ) (d : List ℚ)
    (hbin : ∀ x ∈ d, x = 0 ∨ x = 1) :
    ∀ x ∈ nn_interp sel m d, x = 0 ∨ x = 1 := by
  intro x hx
  simp only [nn_interp, List.mem_map, List.mem_range] at hx
  obtain ⟨i, _, rfl⟩ := hx
  rcases getD_zero_mem_or_eq d (sel i) with h | h
  · exact hbin _ h
  · exact Or.inl h

/-- C2: the preprocessing step resamples if and only if the native in-plane
spacing px or py of the subject volume, rounded to 2 decimal places,
differs from the target spacing 0.3; when it resamples, it resamples both
the subject volume and the cord segmentation to the target spacing, the
latter with binary-preserving interpolation, so that a 0/1-valued cord
segmentation stays 0/1-valued. -/
theorem C2_resample_iff_spacing_differs (interp : List ℚ → List ℚ)
    (sel : ℕ → ℕ) (m : ℕ) (t2star sc_seg : Vol2)
    (hbin : ∀ x ∈ sc_seg.data, x = 0 ∨ x = 1) :
    ((preprocessing_resample interp sel m t2star sc_seg).2.2 = true ↔
      (round2 t2star.px ≠ resample_to ∨ round2 t2star.py ≠ resample_to)) ∧
    ((round2 t2star.px ≠ resample_to ∨ round2 t2star.py ≠ resample_to) →
      preprocessing_resample interp sel m t2star sc_seg =
        (resample_image interp t2star resample_to resample_to,
         resample_image_binary sel m sc_seg resample_to resample_to, true)) ∧
    (¬(round2 t2star.px ≠ resample_to ∨ round2 t2star.py ≠ resample_to) →
      preprocessing_resample interp sel m t2star sc_seg =
        (t2star, sc_seg, false)) ∧
    (∀ x ∈ (preprocessing_resample interp sel m t2star sc_seg).2.1.data,
      x = 0 ∨ x = 1) := by
  by_cases h : round2 t2star.px ≠ resample_to ∨ round2 t2star.py ≠ resample_to
  · have he : preprocessing_resample interp sel m t2star sc_seg =
        (resample_image interp t2star resample_to resample_to,
         resample_image_binary sel m sc_seg resample_to resample_to, true) := by
      rw [preprocessing_resample, if_pos h]
    refine ⟨?_, fun _ => he, fun hc => absurd h hc, ?_⟩
    · rw [he]
      simpa using h
    · rw [he]
      exact nn_interp_binary sel m sc_seg.data hbin
  · have he : preprocessing_resample interp sel m t2star sc_seg =
        (t2star, sc_seg, false) := by
      rw [preprocessing_resample, if_neg h]
    refine ⟨?_, fun hc => absurd hc h, fun _ => he, ?_⟩
    · rw [he]
      simpa using h
    · rw [he]
      exact hbin

/-- Witness for C2 at a 0/1-valued cord segmentation. -/
theorem C2_resample_iff_spacing_differs_witness :
    (∀ x ∈ demo_sc_seg.data, x = 0 ∨ x = 1) ∧
    (((preprocessing_resample id id 2 demo_t2star demo_sc_seg).2.2 = true ↔
       (round2 demo_t2star.px ≠ resample_to ∨
        round2 demo_t2star.py ≠ resample_to)) ∧
     ((round2 demo_t2star.px ≠ resample_to ∨
       round2 demo_t2star.py ≠ resample_to) →
       preprocessing_resample id id 2 demo_t2star demo_sc_seg =
         (resample_image id demo_t2star resample_to resample_to,
          resample_image_binary id 2 demo_sc_seg resample_to resample_to,
          true)) ∧
     (¬(round2 demo_t2star.px ≠ resample_to ∨
        round2 demo_t2star.py ≠ resample_to) →
       preprocessing_resample id id 2 demo_t2star demo_sc_seg =
         (demo_t2star, demo_sc_seg, false)) ∧
     (∀ x ∈ (preprocessing_resample id id 2 demo_t2star demo_sc_seg).2.1.data,
       x = 0 ∨ x = 1)) :=
  ⟨by decide,
   C2_resample_iff_spacing_differs id id 2 demo_t2star demo_sc_seg (by decide)⟩

/-- C1: applying inverse_square_crop to the crop produced with a mask
restores the full pre-crop extent recorded in the mask; every voxel inside
the crop window equals the corresponding cropped value, which is the
original volume's value at that voxel, and every voxel outside the window
is zero. -/
theorem C1_crop_roundtrip (v : Vol3) (m : CropMask) :
    ((inverse_square_crop (crop_from_square_mask v m) m).nx = m.fnx ∧
     (inverse_square_crop (crop_from_square_mask v m) m).ny = m.fny ∧
     (inverse_square_crop (crop_from_square_mask v m) m).nz = m.fnz) ∧
    (∀ x y z, inCropWindow m x y →
      (inverse_square_crop (crop_from_square_mask v m) m).val x y z =
        (crop_from_square_mask v m).val (x - m.x0) (y - m.y0) z ∧
      (inverse_square_crop (crop_from_square_mask v m) m).val x y z =
        v.val x y z) ∧
    (∀ x y z, ¬inCropWindow m x y →
      (inverse_square_crop (crop_from_square_mask v m) m).val x y z = 0) := by
  refine ⟨⟨rfl, rfl, rfl⟩, ?_, ?_⟩
  · intro x y z hin
    have hval : (inverse_square_crop (crop_from_square_mask v m) m).val x y z =
        (crop_from_square_mask v m).val (x - m.x0) (y - m.y0) z := by
      simp only [inverse_square_crop]
      rw [if_pos hin]
    refine ⟨hval, ?_⟩
    rw [hval]
    simp only [crop_from_square_mask]
    rw [Nat.sub_add_cancel hin.1, Nat.sub_add_cancel hin.2.2.1]
  · intro x y z hout
    simp only [inverse_square_crop]
    rw [if_neg hout]

/-- Witness for C1: with the demo mask, the in-window voxel (2,2,1) is
restored to the original value and the out-of-window voxel (0,0,0) is
zeroed. -/
theorem C1_crop_roundtrip_witness :
    inCropWindow demo_mask 2 2 ∧
    ¬inCropWindow demo_mask 0 0 ∧
    (inverse_square_crop (crop_from_square_mask demo_vol demo_mask)
        demo_mask).val 2 2 1 = demo_vol.val 2 2 1 ∧
    (inverse_square_crop (crop_from_square_mask demo_vol demo_mask)
        demo_mask).val 0 0 0 = 0 :=
  ⟨by decide, by decide,
   ((C1_crop_roundtrip demo_vol demo_mask).2.1 2 2 1 (by decide)).2,
   (C1_crop_roundtrip demo_vol demo_mask).2.2 0 0 0 (by decide)⟩

/-- Exhaustive description of one Dice comparison with fallback: direct
success, a fatal failure at one of the fallback preparation steps, or the
completed fallback whose outcome is the retry's outcome. -/
theorem diceWithFallback_cases (env : VCmd → Bool) (ref res : String) :
    (env (VCmd.dice ref res) = true ∧
      diceWithFallback env ref res = (true, [VCmd.dice ref res])) ∨
    (env (VCmd.dice ref res) = false ∧
      env (VCmd.antsRegTranslation res ref) = false ∧
      diceWithFallback env ref res =
        (false, [VCmd.dice ref res, VCmd.antsRegTranslation res ref])) ∨
    (env (VCmd.dice ref res) = false ∧
      env (VCmd.antsRegTranslation res ref) = true ∧
      env (VCmd.maths_thr (in_res_space ref) dice_fallback_thr) = false ∧
      diceWithFallback env ref res =
        (false, [VCmd.dice ref res, VCmd.antsRegTranslation res ref,
                 VCmd.maths_thr (in_res_space ref) dice_fallback_thr])) ∨
    (env (VCmd.dice ref res) = false ∧
      env (VCmd.antsRegTranslation res ref) = true ∧
      env (VCmd.maths_thr (in_res_space ref) dice_fallback_thr) = true ∧
      env (VCmd.maths_bin (in_res_space ref)) = false ∧
      diceWithFallback env ref res =
        (false, [VCmd.dice ref res, VCmd.antsRegTranslation res ref,
                 VCmd.maths_thr (in_res_space ref) dice_fallback_thr,
                 VCmd.maths_bin (in_res_space ref)])) ∨
    (env (VCmd.dice ref res) = false ∧
      env (VCmd.antsRegTranslation res ref) = true ∧
      env (VCmd.maths_thr (in_res_space ref) dice_fallback_thr) = true ∧
      env (VCmd.maths_bin (in_res_space ref)) = true ∧
      diceWithFallback env ref res =
        (env (VCmd.dice (in_res_space ref) res),
         [VCmd.dice ref res, VCmd.antsRegTranslation res ref,
          VCmd.maths_thr (in_res_space ref) dice_fallback_thr,
          VCmd.maths_bin (in_res_space ref),
          VCmd.dice (in_res_space ref) res])) := by
  cases hd : env (VCmd.dice ref res) with
  | true => exact Or.inl ⟨rfl, by simp [diceWithFallback, hd]⟩
  | false =>
    cases hr : env (VCmd.antsRegTranslation res ref) with
    | false =>
      exact Or.inr (Or.inl ⟨rfl, rfl, by simp [diceWithFallback, hd, hr]⟩)
    | true =>
      cases ht : env (VCmd.maths_thr (in_res_space ref) dice_fallback_thr) with
      | false =>
        exact Or.inr (Or.inr (Or.inl
          ⟨rfl, rfl, rfl, by simp [diceWithFallback, hd, hr, ht]⟩))
      | true =>
        cases hb : env (VCmd.maths_bin (in_res_space ref)) with
        | false =>
          exact Or.inr (Or.inr (Or.inr (Or.inl
            ⟨rfl, rfl, rfl, rfl, by simp [diceWithFallback, hd, hr, ht, hb]⟩)))
        | true =>
          exact Or.inr (Or.inr (Or.inr (Or.inr
            ⟨rfl, rfl, rfl, rfl, by simp [diceWithFallback, hd, hr, ht, hb]⟩)))

/-- In a successful Dice comparison, every issued command other than the
direct Dice invocation succeeded. -/
theorem diceWithFallback_success_cmds (env : VCmd → Bool) (ref res : String)
    (h : (diceWithFallback env ref res).1 = true) :
    ∀ c ∈ (diceWithFallback env ref res).2,
      c = VCmd.dice ref res ∨ env c = true := by
  rcases diceWithFallback_cases env ref res with
      ⟨_, he⟩ | ⟨_, _, he⟩ | ⟨_, _, _, he⟩ | ⟨_, _, _, _, he⟩
      | ⟨_, hr, ht, hb, he⟩
  · intro c hc
    rw [he] at hc
    simp only [List.mem_singleton] at hc
    exact Or.inl hc
  · rw [he] at h
    exact absurd h (by simp)
  · rw [he] at h
    exact absurd h (by simp)
  · rw [he] at h
    exact absurd h (by simp)
  · rw [he] at h
    intro c hc
    rw [he] at hc
    simp only [List.mem_cons, List.mem_singleton, List.not_mem_nil,
      or_false] at hc
    rcases hc with rfl | rfl | rfl | rfl | rfl
    · exact Or.inl rfl
    · exact Or.inr hr
    · exact Or.inr ht
    · exact Or.inr hb
    · exact Or.inr h

/-- Exhaustive description of the validation Dice section: abort on a
failed gray-matter comparison, abort on a failed white-matter comparison,
or run the Hausdorff call whose outcome decides the section's outcome. -/
theorem validation_dice_section_cases (env : VCmd → Bool)
    (refgm resgm refwm reswm : String) :
    ((diceWithFallback env refgm resgm).1 = false ∧
      validation_dice_section env refgm resgm refwm reswm =
        (false, (diceWithFallback env refgm resgm).2)) ∨
    ((diceWithFallback env refgm resgm).1 = true ∧
      (diceWithFallback env refwm reswm).1 = false ∧
      validation_dice_section env refgm resgm refwm reswm =
        (false, (diceWithFallback env refgm resgm).2 ++
                (diceWithFallback env refwm reswm).2)) ∨
    ((diceWithFallback env refgm resgm).1 = true ∧
      (diceWithFallback env refwm reswm).1 = true ∧
      validation_dice_section env refgm resgm refwm reswm =
        (env (VCmd.hausdorff resgm refgm),
         (diceWithFallback env refgm resgm).2 ++
         (diceWithFallback env refwm reswm).2 ++
         [VCmd.hausdorff resgm refgm])) := by
  cases hg : (diceWithFallback env refgm resgm).1 with
  | false => exact Or.inl ⟨rfl, by simp [validation_dice_section, hg]⟩
  | true =>
    cases hw : (diceWithFallback env refwm reswm).1 with
    | false =>
      exact Or.inr (Or.inl ⟨rfl, rfl, by simp [validation_dice_section, hg, hw]⟩)
    | true =>
      exact Or.inr (Or.inr ⟨rfl, rfl, by simp [validation_dice_section, hg, hw]⟩)

/-- C4: when the direct overlap (Dice) invocation fails, the reference is
registered into the computed result's space by a zero-iteration translation
registration, thresholded at 0.1, binarized, and the overlap computation is
retried exactly once, a failure of the retry being fatal; a failure of any
fallback preparation step is fatal, the overlap tool is never invoked more
than twice, a Hausdorff failure is fatal, and in a successful validation
run the only commands allowed to have failed are the direct Dice
invocations — every other external-tool failure aborts. -/
theorem C4_dice_fallback (env : VCmd → Bool) (refgm resgm refwm reswm : String) :
    (env (VCmd.dice refgm resgm) = true →
      diceWithFallback env refgm resgm = (true, [VCmd.dice refgm resgm])) ∧
    (env (VCmd.dice refgm resgm) = false →
     env (VCmd.antsRegTranslation resgm refgm) = true →
     env (VCmd.maths_thr (in_res_space refgm) dice_fallback_thr) = true →
     env (VCmd.maths_bin (in_res_space refgm)) = true →
      diceWithFallback env refgm resgm =
        (env (VCmd.dice (in_res_space refgm) resgm),
         [VCmd.dice refgm resgm, VCmd.antsRegTranslation resgm refgm,
          VCmd.maths_thr (in_res_space refgm) dice_fallback_thr,
          VCmd.maths_bin (in_res_space refgm),
          VCmd.dice (in_res_space refgm) resgm])) ∧
    (env (VCmd.dice refgm resgm) = false →
     (env (VCmd.antsRegTranslation resgm refgm) = false ∨
      env (VCmd.maths_thr (in_res_space refgm) dice_fallback_thr) = false ∨
      env (VCmd.maths_bin (in_res_space refgm)) = false) →
      (diceWithFallback env refgm resgm).1 = false) ∧
    ((diceWithFallback env refgm resgm).2.countP isDiceCmd ≤ 2) ∧
    (env (VCmd.hausdorff resgm refgm) = false →
      (validation_dice_section env refgm resgm refwm reswm).1 = false) ∧
    ((validation_dice_section env refgm resgm refwm reswm).1 = true →
      ∀ c ∈ (validation_dice_section env refgm resgm refwm reswm).2,
        c = VCmd.dice refgm resgm ∨ c = VCmd.dice refwm reswm ∨
        env c = true) := by
  refine ⟨fun hd => by simp [diceWithFallback, hd], ?_, ?_, ?_, ?_, ?_⟩
  · intro hd hr ht hb
    simp [diceWithFallback, hd, hr, ht, hb]
  · intro hd hor
    rcases diceWithFallback_cases env refgm resgm with
        ⟨h1, _⟩ | ⟨_, _, he⟩ | ⟨_, _, _, he⟩ | ⟨_, _, _, _, he⟩
        | ⟨_, hr, ht, hb, _⟩
    · rw [h1] at hd
      exact absurd hd (by simp)
    · rw [he]
    · rw [he]
    · rw [he]
    · rcases hor with h | h | h
      · rw [hr] at h
        exact absurd h (by simp)
      · rw [ht] at h
        exact absurd h (by simp)
      · rw [hb] at h
        exact absurd h (by simp)
  · rcases diceWithFallback_cases env refgm resgm with
        ⟨_, he⟩ | ⟨_, _, he⟩ | ⟨_, _, _, he⟩ | ⟨_, _, _, _, he⟩
        | ⟨_, _, _, _, he⟩ <;>
      rw [he] <;>
      simp [isDiceCmd, List.countP_cons, List.countP_nil]
  · intro hh
    rcases validation_dice_section_cases env refgm resgm refwm reswm with
        ⟨_, he⟩ | ⟨_, _, he⟩ | ⟨_, _, he⟩
    · rw [he]
    · rw [he]
    · rw [he, hh]
  · intro hs c hc
    rcases validation_dice_section_cases env refgm resgm refwm reswm with
        ⟨_, he⟩ | ⟨_, _, he⟩ | ⟨hg, hw, he⟩
    · rw [he] at hs
      exact absurd hs (by simp)
    · rw [he] at hs
      exact absurd hs (by simp)
    · rw [he] at hs hc
      simp only [List.mem_append, List.mem_singleton] at hc
      rcases hc with (hcg | hcw) | rfl
      · rcases diceWithFallback_success_cmds env refgm resgm hg c hcg with
            rfl | h
        · exact Or.inl rfl
        · exact Or.inr (Or.inr h)
      · rcases diceWithFallback_success_cmds env refwm reswm hw c hcw with
            rfl | h
        · exact Or.inr (Or.inl rfl)
        · exact Or.inr (Or.inr h)
      · exact Or.inr (Or.inr hs)

/-- Witness for C4: in an environment where only the direct gray-matter
Dice invocation fails, the fallback runs the registration, the 0.1
threshold, the binarization and exactly one retry. -/
theorem C4_dice_fallback_witness :
    fallback_demo_env (VCmd.dice "ref_gm" "res_gm") = false ∧
    fallback_demo_env (VCmd.antsRegTranslation "res_gm" "ref_gm") = true ∧
    fallback_demo_env (VCmd.maths_thr (in_res_space "ref_gm") dice_fallback_thr) = true ∧
    fallback_demo_env (VCmd.maths_bin (in_res_space "ref_gm")) = true ∧
    diceWithFallback fallback_demo_env "ref_gm" "res_gm" =
      (fallback_demo_env (VCmd.dice (in_res_space "ref_gm") "res_gm"),
       [VCmd.dice "ref_gm" "res_gm", VCmd.antsRegTranslation "res_gm" "ref_gm",
        VCmd.maths_thr (in_res_space "ref_gm") dice_fallback_thr,
        VCmd.maths_bin (in_res_space "ref_gm"),
        VCmd.dice (in_res_space "ref_gm") "res_gm"]) :=
  ⟨by decide, rfl, rfl, by decide,
   (C4_dice_fallback fallback_demo_env "ref_gm" "res_gm" "ref_wm"
       "res_wm").2.1 (by decide) rfl rfl (by decide)⟩

end SctGmseg
